import Mathlib

/-!
Shallow embedding of the room-directory service of
`src/backend/routes/api/rooms.js`.

The source file contains two concatenated variants of the same Express
router:

* an *aggregate-cache* variant (lines 1-347): every listing request goes
  through a single Aggregate Query Cache entry keyed by the full query
  signature; room creation deletes one hard-coded cache key;
* a *split-cache* variant (lines 348-673): listing requests with an empty
  search term are served from a Sorted Index (redis zset
  `chat:rooms:ids`) plus a per-room Detail Cache (`chat:room:<id>`),
  repaired lazily from the Primary Store; requests with a search term
  fall back to the Primary Store directly; creation writes the detail
  entry and the zset member.

Handlers are modelled as pure functions from an explicit Primary Store
state, a cache-backend state (with an `up` flag modelling backend
reachability: every operation on a backend with `up = false` behaves as
the corresponding JS promise rejection), the requesting principal and
the request, to a result bundling the HTTP-style response, the updated
states, the emitted broadcast (if any) and a trace of the store/cache
operations the handler performed, in order.
-/

namespace Rooms

/-- A user record in the users collection of the Primary Store. -/
structure User where
  id : Nat
  name : String
  email : String
deriving Repr, DecidableEq

/-- A room document in the Primary Store (the mongoose `Room` model).
The `password` field is selected out by default (the join handler uses
an explicit `select('+password')` to obtain it). -/
structure Room where
  id : Nat
  name : String
  hasPassword : Bool
  creator : Nat
  participants : List Nat
  password : Option String
  createdAt : Nat
deriving Repr, DecidableEq

/-- The Primary Store: the rooms collection and the users collection. -/
structure Store where
  rooms : List Room
  users : List User
deriving Repr, DecidableEq

def findUser (users : List User) (uid : Nat) : Option User :=
  users.find? (fun u => u.id == uid)

def findRoom (rooms : List Room) (rid : Nat) : Option Room :=
  rooms.find? (fun r => r.id == rid)

/-! ### Query-parameter normalization (both variants, lines 80-86 / 444-446) -/

/-- JavaScript `x || d` applied to a number: `NaN` (modelled as `none`,
the result of `parseInt` on an absent or non-numeric parameter) and `0`
are falsy and fall back to the default. -/
def jsOr (v : Option Int) (d : Int) : Int :=
  match v with
  | none => d
  | some x => if x = 0 then d else x

/-- `Math.max(0, parseInt(req.query.page) || 0)`. -/
def normPage (q : Option Int) : Nat :=
  (max 0 (jsOr q 0)).toNat

/-- `Math.min(Math.max(1, parseInt(req.query.pageSize) || 10), 50)`. -/
def normPageSize (q : Option Int) : Nat :=
  (min (max 1 (jsOr q 10)) 50).toNat

/-- `['createdAt','name','participantsCount'].includes(f) ? f : 'createdAt'`. -/
def normSortField (q : Option String) : String :=
  match q with
  | none => "createdAt"
  | some s =>
    if s = "createdAt" ∨ s = "name" ∨ s = "participantsCount" then s else "createdAt"

/-- `['asc','desc'].includes(o) ? o : 'desc'`. -/
def normSortOrder (q : Option String) : String :=
  match q with
  | none => "desc"
  | some s => if s = "asc" ∨ s = "desc" then s else "desc"

/-- Listing query parameters as parsed from the request. Numeric fields
hold the `parseInt` result (`none` for absent or non-numeric input). -/
structure Query where
  page : Option Int := none
  pageSize : Option Int := none
  sortField : Option String := none
  sortOrder : Option String := none
  search : Option String := none
deriving Repr, DecidableEq

/-- The Aggregate Query Cache key (aggregate-cache variant, line 89). -/
def cacheKey (page pageSize : Nat) (sortField sortOrder search : String) : String :=
  "chat:rooms:list:page=" ++ toString page ++ ":size=" ++ toString pageSize ++
    ":sort=" ++ sortField ++ ":" ++ sortOrder ++ ":search=" ++ search

/-- The key the aggregate-cache variant computes for a request. -/
def reqKey (q : Query) : String :=
  cacheKey (normPage q.page) (normPageSize q.pageSize)
    (normSortField q.sortField) (normSortOrder q.sortOrder) (q.search.getD "")

/-- The single key deleted by the aggregate-cache creation handler (line 229). -/
def defaultListKey : String :=
  "chat:rooms:list:page=0:size=10:sort=createdAt:desc:search="

/-! ### Case-insensitive substring match

Models the `{ $regex: search, $options: 'i' }` name filter for search
terms without regex metacharacters, which the spec describes as a
case-insensitive substring match. -/

def chPre : List Char → List Char → Bool
  | [], _ => true
  | _ :: _, [] => false
  | a :: as, b :: bs => a == b && chPre as bs

def chSub (n : List Char) : List Char → Bool
  | [] => chPre n []
  | c :: cs => chPre n (c :: cs) || chSub n cs

def containsCI (hay needle : String) : Bool :=
  chSub needle.toLower.toList hay.toLower.toList

/-! ### The sort relation of the aggregate pipeline

`{ $sort: { [sortField]: sortOrder === 'desc' ? -1 : 1 } }` (line 112).
The pipeline's sort is modelled with `List.insertionSort`; ordering
between equal keys is unspecified by the source (mongo's sort is not
guaranteed stable) and the model fixes one stable choice. -/

def roomKeyLEb (f : String) (a b : Room) : Bool :=
  if f = "name" then decide (a.name ≤ b.name)
  else if f = "participantsCount" then decide (a.participants.length ≤ b.participants.length)
  else decide (a.createdAt ≤ b.createdAt)

def roomLEb (f ord : String) (a b : Room) : Bool :=
  if ord = "desc" then roomKeyLEb f b a else roomKeyLEb f a b

def roomRel (f ord : String) : Room → Room → Prop :=
  fun a b => roomLEb f ord a b = true

instance (f ord : String) : DecidableRel (roomRel f ord) := fun a b =>
  inferInstanceAs (Decidable (roomLEb f ord a b = true))

instance (f ord : String) : IsTotal Room (roomRel f ord) := by
  constructor
  intro a b
  unfold roomRel roomLEb roomKeyLEb
  split_ifs <;> simp only [decide_eq_true_eq] <;> exact le_total _ _

instance (f ord : String) : IsTrans Room (roomRel f ord) := by
  constructor
  intro a b c hab hbc
  unfold roomRel roomLEb roomKeyLEb at hab hbc ⊢
  split_ifs at hab hbc ⊢ <;> simp only [decide_eq_true_eq] at hab hbc ⊢ <;>
    first
    | exact le_trans hab hbc
    | exact le_trans hbc hab

/-! ### Response shapes (aggregate-cache variant listing, lines 139-171) -/

structure CreatorInfo where
  id : String
  name : String
  email : String
deriving Repr, DecidableEq

structure RoomSummary where
  id : String
  name : String
  hasPassword : Bool
  creator : CreatorInfo
  participantsCount : Nat
  createdAt : Nat
  isCreator : Bool
deriving Repr, DecidableEq

structure SortDesc where
  field : String
  order : String
deriving Repr, DecidableEq

structure Metadata where
  total : Nat
  page : Nat
  pageSize : Nat
  totalPages : Nat
  hasMore : Bool
  currentCount : Nat
  sort : SortDesc
deriving Repr, DecidableEq

structure ListResponse where
  success : Bool
  data : List RoomSummary
  metadata : Metadata
deriving Repr, DecidableEq

/-- An HTTP-style handler outcome: a success body with a status code, or
an error status with the handler's message/code string. -/
inductive Resp (α : Type) where
  | ok (status : Nat) (body : α)
  | fail (status : Nat) (message : String)
deriving Repr, DecidableEq

/-- One store/cache side effect, recorded in issue order. -/
inductive Op where
  | dbCount
  | dbQuery
  | dbFindById (rid : Nat)
  | dbInsert (rid : Nat)
  | dbSave (rid : Nat)
  | cacheGet (key : String)
  | cacheSet (key : String) (ttl : Nat)
  | cacheDel (key : String)
  | zRange (startRank stopRank : Nat)
  | zCard
  | zAdd (member score : Nat)
  | emit (channel event : String)
deriving Repr, DecidableEq

/-- The `safeRooms` projection of the aggregate-cache listing handler
(lines 139-151): aggregate `$lookup`/`$project` of the creator followed
by the defensive defaults, with `isCreator` compared against the
requesting principal. The JS compares the decimal string forms of the
two identifiers (`creator._id.toString() === req.user.id`), which agree
exactly when the identifiers agree; the model compares the identifiers
directly. -/
def summarize (users : List User) (requesterId : Nat) (r : Room) : RoomSummary :=
  match findUser users r.creator with
  | some u =>
    { id := toString r.id
      name := if r.name = "" then "제목 없음" else r.name
      hasPassword := r.hasPassword
      creator :=
        { id := toString u.id
          name := if u.name = "" then "알 수 없음" else u.name
          email := u.email }
      participantsCount := r.participants.length
      createdAt := r.createdAt
      isCreator := decide (u.id = requesterId) }
  | none =>
    { id := toString r.id
      name := if r.name = "" then "제목 없음" else r.name
      hasPassword := r.hasPassword
      creator := { id := "unknown", name := "알 수 없음", email := "" }
      participantsCount := r.participants.length
      createdAt := r.createdAt
      isCreator := false }

/-! ### Aggregate Query Cache backend (aggregate-cache variant) -/

/-- The redis backend as the aggregate-cache variant uses it: a flat
key space of cached list responses. `up = false` models an unreachable
backend: every operation rejects. -/
structure Redis1 where
  up : Bool
  entries : List (String × ListResponse)
deriving Repr, DecidableEq

def lookupKey (es : List (String × ListResponse)) (k : String) : Option ListResponse :=
  (es.find? (fun e => e.1 == k)).map Prod.snd

def setKey (es : List (String × ListResponse)) (k : String) (v : ListResponse) :
    List (String × ListResponse) :=
  (k, v) :: es.filter (fun e => e.1 != k)

def delKey (es : List (String × ListResponse)) (k : String) :
    List (String × ListResponse) :=
  es.filter (fun e => e.1 != k)

/-- The Primary-Store recomputation of a listing page (aggregate-cache
variant, lines 102-171): `countDocuments`, the aggregate pipeline with
`$match`/`$sort`/`$skip`/`$limit`, the `safeRooms` projection and the
pagination metadata. -/
def buildList1 (st : Store) (requesterId : Nat) (page pageSize : Nat)
    (sortField sortOrder search : String) : ListResponse :=
  let filtered :=
    if search = "" then st.rooms
    else st.rooms.filter (fun r => containsCI r.name search)
  let totalCount := filtered.length
  let skip := page * pageSize
  let pageRooms := ((List.insertionSort (roomRel sortField sortOrder) filtered).drop skip).take pageSize
  let safeRooms := pageRooms.map (summarize st.users requesterId)
  { success := true
    data := safeRooms
    metadata :=
      { total := totalCount
        page := page
        pageSize := pageSize
        totalPages := (totalCount + pageSize - 1) / pageSize
        hasMore := decide (skip + pageRooms.length < totalCount)
        currentCount := safeRooms.length
        sort := { field := sortField, order := sortOrder } } }

structure Get1Out where
  resp : Resp ListResponse
  redis : Redis1
  trace : List Op
deriving Repr, DecidableEq

/-- The aggregate-cache variant's listing handler (lines 77-193).
The `redisClient.get` and `redisClient.set` calls are individually
guarded by try/catch: on a backend failure the error is swallowed and
the request proceeds as a cache miss. -/
def getRooms1 (st : Store) (redis : Redis1) (requesterId : Nat) (q : Query) : Get1Out :=
  let key := reqKey q
  let cached : Option ListResponse := if redis.up then lookupKey redis.entries key else none
  match cached with
  | some c => { resp := .ok 200 c, redis := redis, trace := [.cacheGet key] }
  | none =>
    let body := buildList1 st requesterId (normPage q.page) (normPageSize q.pageSize)
      (normSortField q.sortField) (normSortOrder q.sortOrder) (q.search.getD "")
    let redis' :=
      if redis.up then { redis with entries := setKey redis.entries key body } else redis
    { resp := .ok 200 body
      redis := redis'
      trace := [.cacheGet key, .dbCount, .dbQuery, .cacheSet key 60] }

/-! ### Creation (both variants) -/

structure CreateBody where
  name : Option String := none
  password : Option String := none
deriving Repr, DecidableEq

/-- JS `String.prototype.trim`: strip leading and trailing whitespace.
(Structurally recursive stand-in for Lean's `String.trim`, which the
kernel cannot evaluate.) -/
def jsTrim (s : String) : String :=
  String.mk (((s.toList.dropWhile Char.isWhitespace).reverse.dropWhile Char.isWhitespace).reverse)

/-- JS `!name?.trim()`: the name is absent, or blank after trimming. -/
def blankName (n : Option String) : Bool :=
  match n with
  | none => true
  | some s => jsTrim s == ""

/-- Modelled from the spec: the mongoose `Room` model (file
`models/Room.js`, absent from the sources) derives the room's
password-presence flag from the presence of a password secret. -/
def mkRoom (newId requesterId : Nat) (name : String) (password : Option String)
    (now : Nat) : Room :=
  { id := newId
    name := jsTrim name
    hasPassword := password.isSome
    creator := requesterId
    participants := [requesterId]
    password := password
    createdAt := now }

/-- A populated room record, as returned by
`Room.findById(..).populate('creator','name email').populate('participants','name email')`:
references replaced by the referenced user records (or `none` for a
dangling reference). -/
structure PopRoom where
  id : Nat
  name : String
  hasPassword : Bool
  creator : Option User
  participants : List (Option User)
  password : Option String
  createdAt : Nat
deriving Repr, DecidableEq

def populateRoom (users : List User) (r : Room) : PopRoom :=
  { id := r.id
    name := r.name
    hasPassword := r.hasPassword
    creator := findUser users r.creator
    participants := r.participants.map (findUser users)
    password := r.password
    createdAt := r.createdAt }

/-- The `{ ...room, password: undefined }` spread used for both the
broadcast payload and the response body. -/
def stripPw (p : PopRoom) : PopRoom := { p with password := none }

structure Post1Out where
  resp : Resp PopRoom
  store : Store
  redis : Redis1
  broadcast : Option PopRoom
  trace : List Op
deriving Repr, DecidableEq

/-- The aggregate-cache variant's creation handler (lines 196-249).
`sock` models whether the Socket.IO handle was initialized. The
`redisClient.del` of the single representative list key is guarded by
try/catch, so a backend failure there does not affect the response. -/
def createRoom1 (st : Store) (redis : Redis1) (sock : Bool) (requesterId : Nat)
    (body : CreateBody) (newId now : Nat) : Post1Out :=
  if blankName body.name then
    { resp := .fail 400 "방 이름은 필수입니다."
      store := st, redis := redis, broadcast := none, trace := [] }
  else
    let newRoom := mkRoom newId requesterId ((body.name.getD "")) body.password now
    let st' : Store := { st with rooms := st.rooms ++ [newRoom] }
    match findRoom st'.rooms newId with
    | none =>
      { resp := .fail 500 "서버 에러가 발생했습니다."
        store := st', redis := redis, broadcast := none
        trace := [.dbInsert newId, .dbFindById newId] }
    | some saved =>
      let populated := populateRoom st'.users saved
      let redis' :=
        if redis.up then { redis with entries := delKey redis.entries defaultListKey }
        else redis
      { resp := .ok 201 (stripPw populated)
        store := st'
        redis := redis'
        broadcast := if sock then some (stripPw populated) else none
        trace := [.dbInsert newId, .dbFindById newId]
          ++ (if sock then [.emit "room-list" "roomCreated"] else [])
          ++ [.cacheDel defaultListKey] }

/-! ### Split-cache variant: Sorted Index + Detail Cache (lines 441-575) -/

/-- A room snapshot as held by the Detail Cache and returned as a
listing row by the split-cache variant:
`Room.findById(id).populate('creator','name email').lean()` — the
creator denormalized, participants as raw references, no password field
(it is selected out by default). The detail entry written on creation
additionally embeds populated participant records in the JSON blob;
no reader of the listing path consumes them, and the model keeps the
common shape. -/
structure RoomDetail where
  id : Nat
  name : String
  hasPassword : Bool
  creator : Option User
  participants : List Nat
  createdAt : Nat
deriving Repr, DecidableEq

def toDetail (users : List User) (r : Room) : RoomDetail :=
  { id := r.id
    name := r.name
    hasPassword := r.hasPassword
    creator := findUser users r.creator
    participants := r.participants
    createdAt := r.createdAt }

/-- The split-cache redis backend: the Sorted Index zset
`chat:rooms:ids` as (member, score) pairs and the Detail Cache keyed by
room identifier. `up = false` models an unreachable backend. -/
structure Redis2 where
  up : Bool
  zset : List (Nat × Nat)
  details : List (Nat × RoomDetail)
deriving Repr, DecidableEq

/-- Descending-score order with a fixed tie-break (redis orders equal
scores by member; the spec leaves the tie-break to the structure). -/
def zLEb (a b : Nat × Nat) : Bool :=
  decide (b.2 < a.2) || ((a.2 == b.2) && decide (b.1 ≤ a.1))

def insertZ (x : Nat × Nat) : List (Nat × Nat) → List (Nat × Nat)
  | [] => [x]
  | y :: ys => if zLEb x y then x :: y :: ys else y :: insertZ x ys

def sortZ : List (Nat × Nat) → List (Nat × Nat)
  | [] => []
  | x :: xs => insertZ x (sortZ xs)

/-- `ZREVRANGE chat:rooms:ids start stop`: members ordered by
descending score, restricted to the closed rank interval. -/
def rangeDescending (z : List (Nat × Nat)) (startRank stopRank : Nat) : List Nat :=
  (((sortZ z).map Prod.fst).drop startRank).take (stopRank + 1 - startRank)

/-- `ZCARD chat:rooms:ids`. -/
def zCardinality (z : List (Nat × Nat)) : Nat := z.length

/-- `ZADD` of a single member: adds or updates the member's score. -/
def zAddEntry (z : List (Nat × Nat)) (member score : Nat) : List (Nat × Nat) :=
  (member, score) :: z.filter (fun e => e.1 != member)

def detailKey (rid : Nat) : String := "chat:room:" ++ toString rid

def lookupDetail (ds : List (Nat × RoomDetail)) (rid : Nat) : Option RoomDetail :=
  (ds.find? (fun e => e.1 == rid)).map Prod.snd

def setDetail (ds : List (Nat × RoomDetail)) (rid : Nat) (v : RoomDetail) :
    List (Nat × RoomDetail) :=
  (rid, v) :: ds.filter (fun e => e.1 != rid)

/-- The repair loop of the split-cache listing handler (lines 457-467):
`vals` are the Detail-Cache responses gathered first for the whole
window; each missing entry is then fetched from the Primary Store and, if
found, written back with `EX: 3600`. Returns the per-identifier values,
the updated Detail Cache and the trace of the loop's operations. -/
def repairLoop (st : Store) :
    List Nat → List (Option RoomDetail) → List (Nat × RoomDetail) →
    List (Option RoomDetail) × List (Nat × RoomDetail) × List Op
  | [], _, ds => ([], ds, [])
  | _ :: _, [], ds => ([], ds, [])
  | rid :: ids, v :: vs, ds =>
    match v with
    | some d =>
      let r := repairLoop st ids vs ds
      (some d :: r.1, r.2.1, r.2.2)
    | none =>
      match findRoom st.rooms rid with
      | some dbRoom =>
        let d := toDetail st.users dbRoom
        let r := repairLoop st ids vs (setDetail ds rid d)
        (some d :: r.1, r.2.1, .dbFindById rid :: .cacheSet (detailKey rid) 3600 :: r.2.2)
      | none =>
        let r := repairLoop st ids vs ds
        (none :: r.1, r.2.1, .dbFindById rid :: r.2.2)

structure DetailListResponse where
  success : Bool
  data : List RoomDetail
  metadata : Metadata
deriving Repr, DecidableEq

structure Get2Out where
  resp : Resp DetailListResponse
  redis : Redis2
  trace : List Op
deriving Repr, DecidableEq

/-- The split-cache variant's listing handler (lines 442-525). All
redis calls sit inside the request's only try/catch, so a backend
failure on the empty-search path reaches the outer catch and produces
the 500 `ROOMS_FETCH_ERROR` response. The search path touches no
cache. The requested sort field and order are ignored by this
variant. -/
def getRooms2 (st : Store) (redis : Redis2) (q : Query) : Get2Out :=
  let page := normPage q.page
  let pageSize := normPageSize q.pageSize
  let search := q.search.getD ""
  if search = "" then
    if redis.up then
      let startRank := page * pageSize
      let stopRank := startRank + pageSize - 1
      let ids := rangeDescending redis.zset startRank stopRank
      let vals := ids.map (lookupDetail redis.details)
      let rep := repairLoop st ids vals redis.details
      let rooms := rep.1.filterMap id
      let totalCount := zCardinality redis.zset
      { resp := .ok 200
          { success := true
            data := rooms
            metadata :=
              { total := totalCount
                page := page
                pageSize := pageSize
                totalPages := (totalCount + pageSize - 1) / pageSize
                hasMore := decide (startRank + rooms.length < totalCount)
                currentCount := rooms.length
                sort := { field := "createdAt", order := "desc" } } }
        redis := { redis with details := rep.2.1 }
        trace := .zRange startRank stopRank ::
          ids.map (fun i => Op.cacheGet (detailKey i)) ++ rep.2.2 ++ [.zCard] }
    else
      { resp := .fail 500 "ROOMS_FETCH_ERROR", redis := redis, trace := [] }
  else
    let filtered := st.rooms.filter (fun r => containsCI r.name search)
    let totalCount := filtered.length
    let skip := page * pageSize
    let pageRooms :=
      (((List.insertionSort (roomRel "createdAt" "desc") filtered).drop skip).take pageSize).map
        (toDetail st.users)
    { resp := .ok 200
        { success := true
          data := pageRooms
          metadata :=
            { total := totalCount
              page := page
              pageSize := pageSize
              totalPages := (totalCount + pageSize - 1) / pageSize
              hasMore := decide (skip + pageRooms.length < totalCount)
              currentCount := pageRooms.length
              sort := { field := "createdAt", order := "desc" } } }
      redis := redis
      trace := [.dbCount, .dbQuery] }

structure Post2Out where
  resp : Resp PopRoom
  store : Store
  redis : Redis2
  broadcast : Option PopRoom
  trace : List Op
deriving Repr, DecidableEq

/-- The split-cache variant's creation handler (lines 528-575). The
`client.set` and `client.zAdd` cache-maintenance calls are not guarded:
their failure reaches the outer catch and turns the request into a 500
even though the Primary Store write has already succeeded. -/
def createRoom2 (st : Store) (redis : Redis2) (sock : Bool) (requesterId : Nat)
    (body : CreateBody) (newId now : Nat) : Post2Out :=
  if blankName body.name then
    { resp := .fail 400 "방 이름은 필수입니다."
      store := st, redis := redis, broadcast := none, trace := [] }
  else
    let newRoom := mkRoom newId requesterId ((body.name.getD "")) body.password now
    let st' : Store := { st with rooms := st.rooms ++ [newRoom] }
    match findRoom st'.rooms newId with
    | none =>
      { resp := .fail 500 "서버 에러가 발생했습니다."
        store := st', redis := redis, broadcast := none
        trace := [.dbInsert newId, .dbFindById newId] }
    | some saved =>
      let populated := populateRoom st'.users saved
      if redis.up then
        { resp := .ok 201 (stripPw populated)
          store := st'
          redis :=
            { redis with
              details := setDetail redis.details newId (toDetail st'.users saved)
              zset := zAddEntry redis.zset newId saved.createdAt }
          broadcast := if sock then some (stripPw populated) else none
          trace := [.dbInsert newId, .dbFindById newId,
              .cacheSet (detailKey newId) 3600, .zAdd newId saved.createdAt]
            ++ (if sock then [.emit "room-list" "roomCreated"] else []) }
      else
        { resp := .fail 500 "서버 에러가 발생했습니다."
          store := st', redis := redis, broadcast := none
          trace := [.dbInsert newId, .dbFindById newId, .cacheSet (detailKey newId) 3600] }

/-! ### Join handler (identical in both variants, lines 282-342 / 608-668) -/

structure JoinBody where
  password : Option String := none
deriving Repr, DecidableEq

/-- The join handler's view of the room:
`room.populate('participants','name email')` populates only the
participants (the creator stays a raw reference), and the room was
fetched with `select('+password')`, so the password is present until
the `password: undefined` spread strips it. -/
structure JoinView where
  id : Nat
  name : String
  hasPassword : Bool
  creator : Nat
  participants : List (Option User)
  password : Option String
  createdAt : Nat
deriving Repr, DecidableEq

def joinView (users : List User) (r : Room) : JoinView :=
  { id := r.id
    name := r.name
    hasPassword := r.hasPassword
    creator := r.creator
    participants := r.participants.map (findUser users)
    password := r.password
    createdAt := r.createdAt }

def stripJoinPw (v : JoinView) : JoinView := { v with password := none }

def updateRoom (rooms : List Room) (r : Room) : List Room :=
  rooms.map (fun x => if x.id == r.id then r else x)

structure JoinOut where
  resp : Resp JoinView
  store : Store
  broadcast : Option JoinView
  trace : List Op
deriving Repr, DecidableEq

/-- The join handler (lines 282-342, repeated verbatim at 608-668).
`checkPw` models the external `room.checkPassword` collaborator
(modelled from the spec: password verification for protected rooms is
an external collaborator; its code is not in the sources). -/
def joinRoom (st : Store) (sock : Bool) (checkPw : Room → String → Bool)
    (requesterId roomId : Nat) (body : JoinBody) : JoinOut :=
  match findRoom st.rooms roomId with
  | none =>
    { resp := .fail 404 "채팅방을 찾을 수 없습니다."
      store := st, broadcast := none, trace := [.dbFindById roomId] }
  | some room =>
    let gate : Option (Resp JoinView) :=
      if room.hasPassword then
        match body.password with
        | none => some (.fail 400 "비밀번호를 입력해주세요.")
        | some pw =>
          if checkPw room pw then none
          else some (.fail 401 "비밀번호가 일치하지 않습니다.")
      else none
    match gate with
    | some failResp =>
      { resp := failResp, store := st, broadcast := none, trace := [.dbFindById roomId] }
    | none =>
      let already := room.participants.contains requesterId
      let room' :=
        if already then room
        else { room with participants := room.participants ++ [requesterId] }
      let st' :=
        if already then st else { st with rooms := updateRoom st.rooms room' }
      let view := stripJoinPw (joinView st.users room')
      { resp := .ok 200 view
        store := st'
        broadcast := if sock then some view else none
        trace := .dbFindById roomId ::
          ((if already then [] else [.dbSave roomId]) ++
            (if sock then [.emit (toString roomId) "roomUpdate"] else [])) }

/-! ### Spec-side description of the default-path repair read -/

/-- Modelled from the spec: the Detail-Cache read with lazy repair of
section 4.2 — a hit is served from the cache, a miss is fetched from
the Primary Store (denormalized creator included); an identifier
unknown to the store yields nothing. -/
def specRepairRead (st : Store) (ds : List (Nat × RoomDetail)) (rid : Nat) :
    Option RoomDetail :=
  match lookupDetail ds rid with
  | some d => some d
  | none => (findRoom st.rooms rid).map (toDetail st.users)

/-- The identifier window the default path asks of the Sorted Index:
ranks `[page*pageSize, page*pageSize + pageSize - 1]` in descending
score order. -/
def windowIds (redis : Redis2) (q : Query) : List Nat :=
  rangeDescending redis.zset (normPage q.page * normPageSize q.pageSize)
    (normPage q.page * normPageSize q.pageSize + normPageSize q.pageSize - 1)

/-- Modelled from the spec: the data rows of the default-path response
— the identifier window read through the Detail Cache with lazy repair,
identifiers unknown to both cache and store dropped. -/
def specDefaultData (st : Store) (redis : Redis2) (q : Query) : List RoomDetail :=
  ((windowIds redis q).map (specRepairRead st redis.details)).filterMap id

/-! ### Concrete fixtures used by the evaluation theorems -/

def exUsersAB : List User := [⟨1, "alice", "a@x.io"⟩, ⟨2, "bob", "b@x.io"⟩]

/-- A room created by principal 2 (bob). -/
def exRoomBob : Room := ⟨10, "bobs room", false, 2, [2], none, 100⟩

def exStoreAB : Store := ⟨[exRoomBob], exUsersAB⟩

/-- A non-default listing signature: page 1 of the default sort. -/
def exQPage1 : Query := { page := some 1 }

/-- Aggregate cache warmed with the page-1 signature. -/
def c1Warm : Redis1 := (getRooms1 exStoreAB ⟨true, []⟩ 1 exQPage1).redis

/-- A room creation performed against the warmed cache. -/
def c1Post : Post1Out := createRoom1 exStoreAB c1Warm true 1 { name := some "general" } 7 500

/-- Older room whose name sorts first. -/
def exRoomOld : Room := ⟨11, "a", false, 1, [1], none, 50⟩

/-- Newer room whose name sorts last. -/
def exRoomNew : Room := ⟨10, "b", false, 1, [1], none, 100⟩

def exStore7 : Store := ⟨[exRoomOld, exRoomNew], [⟨1, "alice", "a@x.io"⟩]⟩

def exRedis7 : Redis2 :=
  ⟨true, [(10, 100), (11, 50)],
    [(10, toDetail [⟨1, "alice", "a@x.io"⟩] exRoomNew),
     (11, toDetail [⟨1, "alice", "a@x.io"⟩] exRoomOld)]⟩

/-- A request for name-ascending order with an empty search term. -/
def exQNameAsc : Query := { sortField := some "name", sortOrder := some "asc" }

def exRoom20 : Room := ⟨20, "w", false, 1, [1], none, 300⟩

def exRoom21 : Room := ⟨21, "x", false, 1, [1], none, 200⟩

def exStore6 : Store := ⟨[exRoom20, exRoom21], [⟨1, "alice", "a@x.io"⟩]⟩

/-- Split-cache backend whose Detail Cache holds room 20 but misses room 21. -/
def exRedis6 : Redis2 :=
  ⟨true, [(20, 300), (21, 200)], [(20, toDetail [⟨1, "alice", "a@x.io"⟩] exRoom20)]⟩

/-- A password-protected room whose creator 1 is already a participant. -/
def exRoomPw : Room := ⟨20, "secret room", true, 1, [1], some "pw", 100⟩

def exStorePw : Store := ⟨[exRoomPw], [⟨1, "alice", "a@x.io"⟩]⟩

/-- Password oracle for the external `checkPassword` collaborator. -/
def exCheckPw : Room → String → Bool := fun r pw => r.password == some pw

/-! ### Helper lemmas -/



theorem findRoom_cons (a : Room) (t : List Room) (rid : Nat) :
    findRoom (a :: t) rid = if a.id == rid then some a else findRoom t rid := by
  unfold findRoom
  rw [List.find?]
  cases h : a.id == rid <;> simp [h]

theorem findRoom_append_fresh (rooms : List Room) (r : Room)
    (h : rooms.all (fun x => x.id != r.id) = true) :
    findRoom (rooms ++ [r]) r.id = some r := by
  induction rooms with
  | nil =>
    simp [findRoom, List.find?]
  | cons a t ih =>
    rw [List.all_cons, Bool.and_eq_true] at h
    rw [List.cons_append, findRoom_cons]
    have ha : (a.id == r.id) = false := by
      rcases h with ⟨h1, _⟩
      simpa [bne] using h1
    rw [ha]
    simp only [Bool.false_eq_true, if_false]
    exact ih h.2

theorem createRoom1_found (st : Store) (redis : Redis1) (sock : Bool)
    (requesterId : Nat) (body : CreateBody) (newId now : Nat) (saved : Room)
    (hb : blankName body.name = false)
    (hf : findRoom (st.rooms ++ [mkRoom newId requesterId (body.name.getD "") body.password now])
            newId = some saved) :
    createRoom1 st redis sock requesterId body newId now =
      { resp := .ok 201 (stripPw (populateRoom st.users saved))
        store := { st with rooms := st.rooms ++ [mkRoom newId requesterId (body.name.getD "") body.password now] }
        redis := if redis.up then { redis with entries := delKey redis.entries defaultListKey } else redis
        broadcast := if sock then some (stripPw (populateRoom st.users saved)) else none
        trace := [.dbInsert newId, .dbFindById newId]
          ++ (if sock then [.emit "room-list" "roomCreated"] else [])
          ++ [.cacheDel defaultListKey] } := by
  unfold createRoom1
  rw [hb]
  simp only [Bool.false_eq_true, if_false]
  rw [hf]

theorem createRoom2_found (st : Store) (redis : Redis2) (sock : Bool)
    (requesterId : Nat) (body : CreateBody) (newId now : Nat) (saved : Room)
    (hb : blankName body.name = false)
    (hf : findRoom (st.rooms ++ [mkRoom newId requesterId (body.name.getD "") body.password now])
            newId = some saved) :
    createRoom2 st redis sock requesterId body newId now =
      (if redis.up then
        { resp := .ok 201 (stripPw (populateRoom st.users saved))
          store := { st with rooms := st.rooms ++ [mkRoom newId requesterId (body.name.getD "") body.password now] }
          redis :=
            { redis with
              details := setDetail redis.details newId (toDetail st.users saved)
              zset := zAddEntry redis.zset newId saved.createdAt }
          broadcast := if sock then some (stripPw (populateRoom st.users saved)) else none
          trace := [.dbInsert newId, .dbFindById newId,
              .cacheSet (detailKey newId) 3600, .zAdd newId saved.createdAt]
            ++ (if sock then [.emit "room-list" "roomCreated"] else []) }
      else
        { resp := .fail 500 "서버 에러가 발생했습니다."
          store := { st with rooms := st.rooms ++ [mkRoom newId requesterId (body.name.getD "") body.password now] }
          redis := redis, broadcast := none
          trace := [.dbInsert newId, .dbFindById newId, .cacheSet (detailKey newId) 3600] }) := by
  unfold createRoom2
  rw [hb]
  simp only [Bool.false_eq_true, if_false]
  rw [hf]

/-! ### C5 -/

/-- C5 counterexample: the claim says a requested `pageSize` of `0`
becomes `1`; on the code `parseInt(pageSize) || 10` treats `0` as falsy,
so it becomes the default `10` instead. -/
theorem c5_pagesize_zero_counterexample :
    normPageSize (some 0) = 10 ∧ ¬ normPageSize (some 0) = 1 := by
  decide

/-- C5 (amended): effective listing parameters are normalized before
use — `pageSize=1000` is clamped to 50, `pageSize=0` is treated as
unset and becomes the default 10, negative page sizes clamp to 1,
`page=-5` is floored to 0, an unrecognized `sortField` falls back to
`createdAt`; in general `page = max(0, requested)` and the resulting
page size always lies in the closed interval `[1, 50]`. -/
theorem c5_normalization_amended :
    normPageSize (some 1000) = 50 ∧
    normPageSize (some 0) = 10 ∧
    normPageSize (some (-5)) = 1 ∧
    normPage (some (-5)) = 0 ∧
    normPage none = 0 ∧
    normPageSize none = 10 ∧
    normSortField (some "price") = "createdAt" ∧
    normSortField none = "createdAt" ∧
    (∀ v : Option Int, 1 ≤ normPageSize v ∧ normPageSize v ≤ 50) ∧
    (∀ n : Int, normPage (some n) = (max 0 n).toNat) := by
  refine ⟨by decide, by decide, by decide, by decide, by decide, by decide,
    by decide, by decide, ?_, ?_⟩
  · intro v
    have hlow : (1 : Int) ≤ min (max 1 (jsOr v 10)) 50 :=
      le_min (le_max_left 1 (jsOr v 10)) (by norm_num)
    have hhigh : min (max 1 (jsOr v 10)) 50 ≤ 50 := min_le_right _ _
    exact ⟨Int.toNat_le_toNat hlow, Int.toNat_le_toNat hhigh⟩
  · intro n
    by_cases hn : n = 0
    · subst hn; decide
    · simp [normPage, jsOr, hn]

/-! ### C8 -/

/-- C8 (confirmed): a creation request whose room name is missing or
blank after trimming is rejected with the 400 bad-request response
before any Primary Store or cache operation runs, in both variants:
the store, the Sorted Index and both cache tiers are unchanged and the
operation trace is empty. -/
theorem c8_blank_name_rejected (st : Store) (r1 : Redis1) (r2 : Redis2) (sock : Bool)
    (requesterId : Nat) (body : CreateBody) (newId now : Nat)
    (h : blankName body.name = true) :
    createRoom1 st r1 sock requesterId body newId now =
      { resp := .fail 400 "방 이름은 필수입니다.", store := st, redis := r1,
        broadcast := none, trace := [] } ∧
    createRoom2 st r2 sock requesterId body newId now =
      { resp := .fail 400 "방 이름은 필수입니다.", store := st, redis := r2,
        broadcast := none, trace := [] } := by
  refine ⟨?_, ?_⟩
  · unfold createRoom1; rw [h]; simp
  · unfold createRoom2; rw [h]; simp

/-- C8 witness: the whitespace-only name from the spec's test. -/
theorem c8_blank_name_witness :
    createRoom1 ⟨[], []⟩ ⟨true, []⟩ true 1 { name := some "   " } 5 99 =
      { resp := .fail 400 "방 이름은 필수입니다.", store := ⟨[], []⟩, redis := ⟨true, []⟩,
        broadcast := none, trace := [] } ∧
    createRoom2 ⟨[], []⟩ ⟨true, [], []⟩ true 1 { name := some "   " } 5 99 =
      { resp := .fail 400 "방 이름은 필수입니다.", store := ⟨[], []⟩, redis := ⟨true, [], []⟩,
        broadcast := none, trace := [] } :=
  c8_blank_name_rejected ⟨[], []⟩ ⟨true, []⟩ ⟨true, [], []⟩ true 1
    { name := some "   " } 5 99 (by decide)

/-! ### C9 -/

/-- C9 (confirmed): for every successful creation, both variants strip
the password secret from the 201 response body and from the payload of
the `roomCreated` broadcast. -/
theorem c9_password_stripped (st : Store) (r1 : Redis1) (r2 : Redis2) (sock : Bool)
    (requesterId : Nat) (body : CreateBody) (newId now : Nat) :
    (∀ s b, (createRoom1 st r1 sock requesterId body newId now).resp = .ok s b →
      b.password = none) ∧
    (∀ p, (createRoom1 st r1 sock requesterId body newId now).broadcast = some p →
      p.password = none) ∧
    (∀ s b, (createRoom2 st r2 sock requesterId body newId now).resp = .ok s b →
      b.password = none) ∧
    (∀ p, (createRoom2 st r2 sock requesterId body newId now).broadcast = some p →
      p.password = none) := by
  by_cases hb : blankName body.name
  · refine ⟨fun s b h => ?_, fun p h => ?_, fun s b h => ?_, fun p h => ?_⟩ <;>
      simp [createRoom1, createRoom2, hb] at h
  · have hb' : blankName body.name = false := by
      rw [Bool.not_eq_true] at hb
      exact hb
    rcases hf : findRoom (st.rooms ++ [mkRoom newId requesterId (body.name.getD "") body.password now]) newId with _ | saved
    · refine ⟨fun s b h => ?_, fun p h => ?_, fun s b h => ?_, fun p h => ?_⟩ <;>
        simp [createRoom1, createRoom2, hb', hf] at h
    · rw [createRoom1_found st r1 sock requesterId body newId now saved hb' hf,
        createRoom2_found st r2 sock requesterId body newId now saved hb' hf]
      refine ⟨?_, ?_, ?_, ?_⟩
      · intro s b h
        simp only [Resp.ok.injEq] at h
        rw [← h.2]
        rfl
      · intro p h
        by_cases hs : sock <;> simp [hs] at h
        rw [← h]
        rfl
      · intro s b h
        by_cases hu : r2.up <;> simp [hu] at h
        rw [← h.2]
        rfl
      · intro p h
        by_cases hu : r2.up <;> simp [hu] at h
        by_cases hs : sock <;> simp [hs] at h
        rw [← h]
        rfl

/-- C9 witness: a concrete creation with a password; the 201 body and
the broadcast payload carry no password. -/
theorem c9_password_witness :
    ((createRoom1 ⟨[], [⟨1, "alice", "a@x.io"⟩]⟩ ⟨true, []⟩ true 1
        { name := some "general", password := some "hunter2" } 7 500).resp =
      Resp.ok 201 (stripPw (populateRoom [⟨1, "alice", "a@x.io"⟩]
        (mkRoom 7 1 "general" (some "hunter2") 500))) ∧
    (stripPw (populateRoom [⟨1, "alice", "a@x.io"⟩]
        (mkRoom 7 1 "general" (some "hunter2") 500))).password = none) :=
  ⟨by rfl,
   (c9_password_stripped ⟨[], [⟨1, "alice", "a@x.io"⟩]⟩ ⟨true, []⟩ ⟨true, [], []⟩ true 1
      { name := some "general", password := some "hunter2" } 7 500).1 201
     (stripPw (populateRoom [⟨1, "alice", "a@x.io"⟩]
        (mkRoom 7 1 "general" (some "hunter2") 500))) (by rfl)⟩

theorem getRooms1_hit (st : Store) (redis : Redis1) (requesterId : Nat) (q : Query)
    (c : ListResponse) (hup : redis.up = true)
    (hc : lookupKey redis.entries (reqKey q) = some c) :
    getRooms1 st redis requesterId q =
      { resp := .ok 200 c, redis := redis, trace := [.cacheGet (reqKey q)] } := by
  unfold getRooms1
  rw [hup]
  simp only [if_true]
  rw [hc]

theorem getRooms1_miss (st : Store) (redis : Redis1) (requesterId : Nat) (q : Query)
    (hmiss : redis.up = true → lookupKey redis.entries (reqKey q) = none) :
    (getRooms1 st redis requesterId q).resp =
      .ok 200 (buildList1 st requesterId (normPage q.page) (normPageSize q.pageSize)
        (normSortField q.sortField) (normSortOrder q.sortOrder) (q.search.getD "")) ∧
    (getRooms1 st redis requesterId q).trace =
      [.cacheGet (reqKey q), .dbCount, .dbQuery, .cacheSet (reqKey q) 60] ∧
    (redis.up = true →
      (getRooms1 st redis requesterId q).redis.entries =
        setKey redis.entries (reqKey q)
          (buildList1 st requesterId (normPage q.page) (normPageSize q.pageSize)
            (normSortField q.sortField) (normSortOrder q.sortOrder) (q.search.getD ""))) ∧
    (redis.up = false → (getRooms1 st redis requesterId q).redis = redis) := by
  unfold getRooms1
  dsimp only
  cases hu : redis.up with
  | false => exact ⟨rfl, rfl, fun h => Bool.noConfusion h, fun _ => rfl⟩
  | true =>
    rw [hmiss hu]
    exact ⟨rfl, rfl, fun _ => rfl, fun h => Bool.noConfusion h⟩

theorem findUser_id (users : List User) (i : Nat) (u : User)
    (h : findUser users i = some u) : u.id = i := by
  unfold findUser at h
  have := List.find?_some h
  simpa using this

/-! ### C2 -/

/-- C2 counterexample: principal 1 (not the creator) warms the
aggregate cache for the default signature; principal 2 — the creator of
the only room — issues the identical request and is served the cached
page verbatim, whose `isCreator` flag is `false` even though the room's
creator equals principal 2. -/
theorem c2_shared_flag_counterexample :
    (getRooms1 exStoreAB (getRooms1 exStoreAB ⟨true, []⟩ 1 {}).redis 2 {}).resp =
      Resp.ok 200 (buildList1 exStoreAB 1 0 10 "createdAt" "desc" "") ∧
    (buildList1 exStoreAB 1 0 10 "createdAt" "desc" "").data.map (fun s => s.isCreator) =
      [false] ∧
    exRoomBob.creator = 2 := by
  refine ⟨?_, ?_, rfl⟩
  · rfl
  · rfl

/-- C2 (amended): on a cache miss the listing response is computed for
the requesting principal (each summary's `isCreator` is true exactly
when the room's creator resolves to that principal), but a request
served from a shared Aggregate Query Cache entry returns the stored
entry verbatim, independent of the requesting principal — so its
`isCreator` flags are those of the principal whose request populated
the entry, not necessarily the answering request's principal. -/
theorem c2_isCreator_amended :
    (∀ st redis ra rb q c, redis.up = true →
      lookupKey redis.entries (reqKey q) = some c →
      (getRooms1 st redis ra q).resp = Resp.ok 200 c ∧
      (getRooms1 st redis ra q).resp = (getRooms1 st redis rb q).resp) ∧
    (∀ st redis requesterId q, (redis.up = true → lookupKey redis.entries (reqKey q) = none) →
      (getRooms1 st redis requesterId q).resp = Resp.ok 200
        (buildList1 st requesterId (normPage q.page) (normPageSize q.pageSize)
          (normSortField q.sortField) (normSortOrder q.sortOrder) (q.search.getD ""))) ∧
    (∀ users requesterId r, (summarize users requesterId r).isCreator = true ↔
      ((∃ u, findUser users r.creator = some u) ∧ r.creator = requesterId)) := by
  refine ⟨?_, ?_, ?_⟩
  · intro st redis ra rb q c hup hc
    rw [getRooms1_hit st redis ra q c hup hc, getRooms1_hit st redis rb q c hup hc]
    exact ⟨rfl, rfl⟩
  · intro st redis requesterId q hmiss
    exact (getRooms1_miss st redis requesterId q hmiss).1
  · intro users requesterId r
    unfold summarize
    cases h : findUser users r.creator with
    | none => simp
    | some u =>
      have hid := findUser_id users r.creator u h
      simp only [decide_eq_true_eq]
      constructor
      · intro he
        refine ⟨⟨u, rfl⟩, ?_⟩
        rw [← hid]
        exact he
      · intro he
        rw [hid]
        exact he.2

/-- C2 witness: the creator-principal 2 served verbatim from the entry
populated for principal 1. -/
theorem c2_isCreator_witness :
    (getRooms1 exStoreAB
        ⟨true, [(reqKey {}, buildList1 exStoreAB 1 0 10 "createdAt" "desc" "")]⟩ 2 {}).resp =
      Resp.ok 200 (buildList1 exStoreAB 1 0 10 "createdAt" "desc" "") :=
  (c2_isCreator_amended.1 exStoreAB
    ⟨true, [(reqKey {}, buildList1 exStoreAB 1 0 10 "createdAt" "desc" "")]⟩ 2 1 {}
    (buildList1 exStoreAB 1 0 10 "createdAt" "desc" "") rfl rfl).1

/-! ### C7 -/

/-- C7 counterexample: a request for name-ascending order with an empty
search term is served by the split-cache variant from the Sorted Index
(`ZREVRANGE` appears in the trace, no Aggregate Query Cache operation
does), and the returned rows come back in creation-time-descending
order — names `b` then `a` — rather than the requested name-ascending
order. -/
theorem c7_sort_ignored_counterexample :
    (getRooms2 exStore7 exRedis7 exQNameAsc).trace =
      [Op.zRange 0 9, Op.cacheGet "chat:room:10", Op.cacheGet "chat:room:11", Op.zCard] ∧
    (getRooms2 exStore7 exRedis7 exQNameAsc).resp = Resp.ok 200
      { success := true
        data := [toDetail [⟨1, "alice", "a@x.io"⟩] exRoomNew,
                 toDetail [⟨1, "alice", "a@x.io"⟩] exRoomOld]
        metadata := ⟨2, 0, 10, 1, false, 2, ⟨"createdAt", "desc"⟩⟩ } ∧
    (toDetail [⟨1, "alice", "a@x.io"⟩] exRoomNew).name = "b" ∧
    (toDetail [⟨1, "alice", "a@x.io"⟩] exRoomOld).name = "a" :=
  ⟨rfl, rfl, rfl, rfl⟩

/-- C7 (amended): in the aggregate-cache variant every listing request
— in particular one with a non-default sort field/order or a non-empty
search term — goes through the Aggregate Query Cache: a cached page is
returned verbatim on hit; on miss the page is computed from the Primary
Store with the requested filter, sort, skip `page*pageSize` and limit
`pageSize`, is written into the cache under the query signature, and
its rows are ordered by the requested sort field and order. (The
split-cache variant does not behave this way: it ignores the requested
sort entirely, serves empty-search requests from the Sorted Index and
search requests from the Primary Store in creation-time-descending
order, and consults no Aggregate Query Cache.) -/
theorem c7_aggregate_path_amended :
    (∀ st redis requesterId q c, redis.up = true →
      lookupKey redis.entries (reqKey q) = some c →
      getRooms1 st redis requesterId q =
        { resp := Resp.ok 200 c, redis := redis, trace := [Op.cacheGet (reqKey q)] }) ∧
    (∀ st redis requesterId q, redis.up = true →
      lookupKey redis.entries (reqKey q) = none →
      (getRooms1 st redis requesterId q).resp = Resp.ok 200
        (buildList1 st requesterId (normPage q.page) (normPageSize q.pageSize)
          (normSortField q.sortField) (normSortOrder q.sortOrder) (q.search.getD "")) ∧
      (getRooms1 st redis requesterId q).redis.entries =
        setKey redis.entries (reqKey q)
          (buildList1 st requesterId (normPage q.page) (normPageSize q.pageSize)
            (normSortField q.sortField) (normSortOrder q.sortOrder) (q.search.getD ""))) ∧
    (∀ st requesterId page pageSize sf so search,
      (buildList1 st requesterId page pageSize sf so search).data =
        (((List.insertionSort (roomRel sf so)
            (if search = "" then st.rooms
             else st.rooms.filter (fun r => containsCI r.name search))).drop
            (page * pageSize)).take pageSize).map (summarize st.users requesterId) ∧
      List.Sorted (roomRel sf so)
        (((List.insertionSort (roomRel sf so)
            (if search = "" then st.rooms
             else st.rooms.filter (fun r => containsCI r.name search))).drop
            (page * pageSize)).take pageSize)) := by
  refine ⟨?_, ?_, ?_⟩
  · intro st redis requesterId q c hup hc
    exact getRooms1_hit st redis requesterId q c hup hc
  · intro st redis requesterId q hup hn
    have h := getRooms1_miss st redis requesterId q (fun _ => hn)
    exact ⟨h.1, h.2.2.1 hup⟩
  · intro st requesterId page pageSize sf so search
    refine ⟨rfl, ?_⟩
    have hs := List.sorted_insertionSort (roomRel sf so)
      (if search = "" then st.rooms
       else st.rooms.filter (fun r => containsCI r.name search))
    have sub :
        List.Sublist
          (((List.insertionSort (roomRel sf so)
              (if search = "" then st.rooms
               else st.rooms.filter (fun r => containsCI r.name search))).drop
              (page * pageSize)).take pageSize)
          (List.insertionSort (roomRel sf so)
            (if search = "" then st.rooms
             else st.rooms.filter (fun r => containsCI r.name search))) :=
      (List.take_sublist _ _).trans (List.drop_sublist _ _)
    exact List.Pairwise.sublist sub hs

/-- C7 witness: a cache hit on the name-ascending signature is returned
verbatim by the aggregate-cache variant. -/
theorem c7_aggregate_path_witness :
    getRooms1 exStoreAB
        ⟨true, [(reqKey exQNameAsc, buildList1 exStoreAB 1 0 10 "name" "asc" "")]⟩ 1 exQNameAsc =
      { resp := Resp.ok 200 (buildList1 exStoreAB 1 0 10 "name" "asc" "")
        redis := ⟨true, [(reqKey exQNameAsc, buildList1 exStoreAB 1 0 10 "name" "asc" "")]⟩
        trace := [Op.cacheGet (reqKey exQNameAsc)] } :=
  c7_aggregate_path_amended.1 exStoreAB
    ⟨true, [(reqKey exQNameAsc, buildList1 exStoreAB 1 0 10 "name" "asc" "")]⟩ 1 exQNameAsc
    (buildList1 exStoreAB 1 0 10 "name" "asc" "") rfl rfl

/-! ### C3 -/

/-- C3 counterexample: with the cache backend unreachable, a default
listing request against the split-cache variant fails with the
user-visible 500 `ROOMS_FETCH_ERROR` instead of completing from the
Primary Store. -/
theorem c3_cache_down_counterexample :
    getRooms2 ⟨[], []⟩ ⟨false, [], []⟩ {} =
      { resp := Resp.fail 500 "ROOMS_FETCH_ERROR", redis := ⟨false, [], []⟩, trace := [] } :=
  rfl

/-- C3 (amended): in the aggregate-cache variant a cache-backend
failure is logged and swallowed — the listing completes from the
Primary Store with the cache state untouched. In the split-cache
variant this holds only for requests with a non-empty search term
(which never touch the cache); for the default path an unreachable
cache backend escalates to the 500 `ROOMS_FETCH_ERROR` response. -/
theorem c3_soft_fail_amended :
    (∀ st redis requesterId q, redis.up = false →
      (getRooms1 st redis requesterId q).resp = Resp.ok 200
        (buildList1 st requesterId (normPage q.page) (normPageSize q.pageSize)
          (normSortField q.sortField) (normSortOrder q.sortOrder) (q.search.getD "")) ∧
      (getRooms1 st redis requesterId q).redis = redis) ∧
    (∀ st redis q, q.search.getD "" ≠ "" →
      (getRooms2 st redis q).redis = redis ∧
      (getRooms2 st redis q).trace = [Op.dbCount, Op.dbQuery] ∧
      ∃ body, (getRooms2 st redis q).resp = Resp.ok 200 body) ∧
    (∀ st redis q, redis.up = false → q.search.getD "" = "" →
      getRooms2 st redis q =
        { resp := Resp.fail 500 "ROOMS_FETCH_ERROR", redis := redis, trace := [] }) := by
  refine ⟨?_, ?_, ?_⟩
  · intro st redis requesterId q hup
    have hmiss : redis.up = true → lookupKey redis.entries (reqKey q) = none := by
      intro h
      rw [hup] at h
      exact Bool.noConfusion h
    have hm := getRooms1_miss st redis requesterId q hmiss
    exact ⟨hm.1, hm.2.2.2 hup⟩
  · intro st redis q hne
    unfold getRooms2
    dsimp only
    rw [if_neg hne]
    exact ⟨rfl, rfl, ⟨_, rfl⟩⟩
  · intro st redis q hup hs
    unfold getRooms2
    dsimp only
    rw [if_pos hs, hup]
    rfl

/-- C3 witness: the aggregate-cache variant with the backend down still
serves the page computed from the Primary Store. -/
theorem c3_soft_fail_witness :
    (getRooms1 exStoreAB ⟨false, []⟩ 2 {}).resp =
      Resp.ok 200 (buildList1 exStoreAB 2 0 10 "createdAt" "desc" "") ∧
    (getRooms1 exStoreAB ⟨false, []⟩ 2 {}).redis = ⟨false, []⟩ :=
  c3_soft_fail_amended.1 exStoreAB ⟨false, []⟩ 2 {} rfl

/-! ### C4 -/

/-- C4 counterexample: in the split-cache variant, with the cache
backend unreachable, a valid creation request writes the room to the
Primary Store and then answers 500 — an error response despite the
successful store write. -/
theorem c4_unguarded_cache_counterexample :
    (createRoom2 ⟨[], [⟨1, "alice", "a@x.io"⟩]⟩ ⟨false, [], []⟩ true 1
        { name := some "general" } 7 500).resp = Resp.fail 500 "서버 에러가 발생했습니다." ∧
    (createRoom2 ⟨[], [⟨1, "alice", "a@x.io"⟩]⟩ ⟨false, [], []⟩ true 1
        { name := some "general" } 7 500).store.rooms = [mkRoom 7 1 "general" none 500] :=
  ⟨rfl, rfl⟩

/-- C4 (amended): in the aggregate-cache variant a creation whose store
write succeeds always answers 201 with the full record — the guarded
cache invalidation cannot fail the response. In the split-cache variant
the unguarded Detail-Cache write / Sorted-Index insert turn a cache
failure into a 500 error response even though the Primary Store write
has succeeded (no partial-success body is emitted: the 500 carries only
the failure message). -/
theorem c4_creation_response_amended :
    (∀ st redis sock requesterId body newId now saved,
      blankName body.name = false →
      findRoom (st.rooms ++ [mkRoom newId requesterId (body.name.getD "") body.password now])
          newId = some saved →
      (createRoom1 st redis sock requesterId body newId now).resp =
        Resp.ok 201 (stripPw (populateRoom st.users saved))) ∧
    (∀ st redis sock requesterId body newId now saved,
      blankName body.name = false →
      findRoom (st.rooms ++ [mkRoom newId requesterId (body.name.getD "") body.password now])
          newId = some saved →
      redis.up = false →
      (createRoom2 st redis sock requesterId body newId now).resp =
        Resp.fail 500 "서버 에러가 발생했습니다." ∧
      (createRoom2 st redis sock requesterId body newId now).store.rooms =
        st.rooms ++ [mkRoom newId requesterId (body.name.getD "") body.password now]) := by
  refine ⟨?_, ?_⟩
  · intro st redis sock requesterId body newId now saved hb hf
    rw [createRoom1_found st redis sock requesterId body newId now saved hb hf]
  · intro st redis sock requesterId body newId now saved hb hf hup
    rw [createRoom2_found st redis sock requesterId body newId now saved hb hf, hup]
    exact ⟨rfl, rfl⟩

/-- C4 witness: the aggregate-cache variant answers 201 even with the
cache backend down. -/
theorem c4_creation_response_witness :
    (createRoom1 ⟨[], [⟨1, "alice", "a@x.io"⟩]⟩ ⟨false, []⟩ true 1
        { name := some "general" } 7 500).resp =
      Resp.ok 201 (stripPw (populateRoom [⟨1, "alice", "a@x.io"⟩]
        (mkRoom 7 1 "general" none 500))) :=
  c4_creation_response_amended.1 ⟨[], [⟨1, "alice", "a@x.io"⟩]⟩ ⟨false, []⟩ true 1
    { name := some "general" } 7 500 (mkRoom 7 1 "general" none 500) (by decide) rfl

/-! ### C1 -/

/-- C1 (code bug, evaluation): after warming the Aggregate Query Cache
with the page-1 signature, a successful room creation deletes only the
single hard-coded default key — the page-1 entry survives (the
handler's own comment concedes that more keys would need deleting) —
and the next page-1 request is served the stale page verbatim: its
total is still 1 although the store now computes 2. -/
theorem c1_single_key_delete_eval :
    c1Warm.entries.map Prod.fst = [reqKey exQPage1] ∧
    c1Post.redis.entries.map Prod.fst = [reqKey exQPage1] ∧
    c1Post.trace = [Op.dbInsert 7, Op.dbFindById 7, Op.emit "room-list" "roomCreated",
      Op.cacheDel defaultListKey] ∧
    (getRooms1 c1Post.store c1Post.redis 1 exQPage1).resp =
      Resp.ok 200 (buildList1 exStoreAB 1 1 10 "createdAt" "desc" "") ∧
    (buildList1 exStoreAB 1 1 10 "createdAt" "desc" "").metadata.total = 1 ∧
    (buildList1 c1Post.store 1 1 10 "createdAt" "desc" "").metadata.total = 2 :=
  ⟨rfl, rfl, rfl, rfl, rfl, rfl⟩

/-! ### C6 -/

theorem repairLoop_vals (st : Store) (ds0 : List (Nat × RoomDetail)) :
    ∀ (ids : List Nat) (ds : List (Nat × RoomDetail)),
      (repairLoop st ids (ids.map (lookupDetail ds0)) ds).1 =
        ids.map (specRepairRead st ds0) := by
  intro ids
  induction ids with
  | nil => intro ds; rfl
  | cons rid ids ih =>
    intro ds
    cases h : lookupDetail ds0 rid with
    | some d =>
      simp [repairLoop, specRepairRead, h, ih]
    | none =>
      cases hf : findRoom st.rooms rid with
      | some r => simp [repairLoop, specRepairRead, h, hf, ih]
      | none => simp [repairLoop, specRepairRead, h, hf, ih]

theorem repairLoop_sets (st : Store) :
    ∀ (ids : List Nat) (vals : List (Option RoomDetail)) (ds : List (Nat × RoomDetail))
      (k : String) (ttl : Nat),
      Op.cacheSet k ttl ∈ (repairLoop st ids vals ds).2.2 →
      ttl = 3600 ∧ ∃ rid, rid ∈ ids ∧ k = detailKey rid := by
  intro ids
  induction ids with
  | nil => intro vals ds k ttl h; simp [repairLoop] at h
  | cons rid ids ih =>
    intro vals ds k ttl h
    cases vals with
    | nil => simp [repairLoop] at h
    | cons v vs =>
      cases v with
      | some d =>
        simp only [repairLoop] at h
        obtain ⟨ht, rid', hmem, hk⟩ := ih vs ds k ttl h
        exact ⟨ht, rid', List.mem_cons_of_mem rid hmem, hk⟩
      | none =>
        cases hf : findRoom st.rooms rid with
        | some r =>
          simp only [repairLoop, hf, List.mem_cons] at h
          rcases h with h | h | h
          · cases h
          · cases h
            exact ⟨rfl, rid, List.mem_cons_self rid ids, rfl⟩
          · obtain ⟨ht, rid', hmem, hk⟩ := ih vs (setDetail ds rid (toDetail st.users r)) k ttl h
            exact ⟨ht, rid', List.mem_cons_of_mem rid hmem, hk⟩
        | none =>
          simp only [repairLoop, hf, List.mem_cons] at h
          rcases h with h | h
          · cases h
          · obtain ⟨ht, rid', hmem, hk⟩ := ih vs ds k ttl h
            exact ⟨ht, rid', List.mem_cons_of_mem rid hmem, hk⟩

theorem repairLoop_no_get (st : Store) :
    ∀ (ids : List Nat) (vals : List (Option RoomDetail)) (ds : List (Nat × RoomDetail))
      (k : String), Op.cacheGet k ∉ (repairLoop st ids vals ds).2.2 := by
  intro ids
  induction ids with
  | nil => intro vals ds k h; simp [repairLoop] at h
  | cons rid ids ih =>
    intro vals ds k h
    cases vals with
    | nil => simp [repairLoop] at h
    | cons v vs =>
      cases v with
      | some d => exact ih vs ds k h
      | none =>
        cases hf : findRoom st.rooms rid with
        | some r =>
          simp only [repairLoop, hf, List.mem_cons] at h
          rcases h with h | h | h
          · cases h
          · cases h
          · exact ih vs (setDetail ds rid (toDetail st.users r)) k h
        | none =>
          simp only [repairLoop, hf, List.mem_cons] at h
          rcases h with h | h
          · cases h
          · exact ih vs ds k h

/-- Evaluation of the split-cache listing handler on its default path. -/
theorem getRooms2_default (st : Store) (redis : Redis2) (q : Query)
    (hs : q.search.getD "" = "") (hup : redis.up = true) :
    getRooms2 st redis q =
      { resp := Resp.ok 200
          { success := true
            data := (repairLoop st (windowIds redis q)
                ((windowIds redis q).map (lookupDetail redis.details)) redis.details).1.filterMap id
            metadata :=
              { total := zCardinality redis.zset
                page := normPage q.page
                pageSize := normPageSize q.pageSize
                totalPages := (zCardinality redis.zset + normPageSize q.pageSize - 1) /
                  normPageSize q.pageSize
                hasMore := decide (normPage q.page * normPageSize q.pageSize +
                  ((repairLoop st (windowIds redis q)
                    ((windowIds redis q).map (lookupDetail redis.details)) redis.details).1.filterMap
                      id).length < zCardinality redis.zset)
                currentCount := ((repairLoop st (windowIds redis q)
                  ((windowIds redis q).map (lookupDetail redis.details)) redis.details).1.filterMap
                    id).length
                sort := ⟨"createdAt", "desc"⟩ } }
        redis := { redis with details := (repairLoop st (windowIds redis q)
            ((windowIds redis q).map (lookupDetail redis.details)) redis.details).2.1 }
        trace := Op.zRange (normPage q.page * normPageSize q.pageSize)
            (normPage q.page * normPageSize q.pageSize + normPageSize q.pageSize - 1) ::
          (windowIds redis q).map (fun i => Op.cacheGet (detailKey i)) ++
            (repairLoop st (windowIds redis q)
              ((windowIds redis q).map (lookupDetail redis.details)) redis.details).2.2 ++
            [Op.zCard] } := by
  unfold getRooms2
  dsimp only
  rw [if_pos hs, hup]
  rfl

/-- C6 (confirmed): on the default path (empty search term, default
creation-time-descending order, cache backend reachable) the
split-cache variant serves the rank window obtained from the Sorted
Index in descending order, reads each identifier through the Detail
Cache with lazy repair from the Primary Store, writes every repaired
entry back with a 3600-second TTL, takes the total from the Sorted
Index cardinality, and consults no Aggregate Query Cache entry — every
cache read in the trace is the Detail-Cache key of a window
identifier. -/
theorem c6_default_path (st : Store) (redis : Redis2) (q : Query)
    (hs : q.search.getD "" = "") (_hdef : normSortField q.sortField = "createdAt" ∧
      normSortOrder q.sortOrder = "desc") (hup : redis.up = true) :
    (getRooms2 st redis q).resp = Resp.ok 200
      { success := true
        data := specDefaultData st redis q
        metadata :=
          { total := zCardinality redis.zset
            page := normPage q.page
            pageSize := normPageSize q.pageSize
            totalPages := (zCardinality redis.zset + normPageSize q.pageSize - 1) /
              normPageSize q.pageSize
            hasMore := decide (normPage q.page * normPageSize q.pageSize +
              (specDefaultData st redis q).length < zCardinality redis.zset)
            currentCount := (specDefaultData st redis q).length
            sort := ⟨"createdAt", "desc"⟩ } } ∧
    (∀ k ttl, Op.cacheSet k ttl ∈ (getRooms2 st redis q).trace →
      ttl = 3600 ∧ ∃ rid, rid ∈ windowIds redis q ∧ k = detailKey rid) ∧
    (∀ k, Op.cacheGet k ∈ (getRooms2 st redis q).trace →
      ∃ rid, rid ∈ windowIds redis q ∧ k = detailKey rid) ∧
    Op.zRange (normPage q.page * normPageSize q.pageSize)
      (normPage q.page * normPageSize q.pageSize + normPageSize q.pageSize - 1) ∈
      (getRooms2 st redis q).trace ∧
    Op.zCard ∈ (getRooms2 st redis q).trace := by
  have hd := getRooms2_default st redis q hs hup
  rw [hd]
  refine ⟨?_, ?_, ?_, ?_, ?_⟩
  · have hv := repairLoop_vals st redis.details (windowIds redis q) redis.details
    dsimp only
    rw [hv]
    rfl
  · intro k ttl h
    simp only [List.mem_cons, List.mem_append, List.mem_map, List.mem_singleton] at h
    cases h with
    | inl hl =>
      cases hl with
      | inl hae =>
        cases hae with
        | inl ha => exact absurd ha (by simp)
        | inr he =>
          obtain ⟨i, _, hi⟩ := he
          exact absurd hi (by simp)
      | inr hm =>
        exact repairLoop_sets st (windowIds redis q)
          ((windowIds redis q).map (lookupDetail redis.details)) redis.details k ttl hm
    | inr htl => exact absurd htl (by simp)
  · intro k h
    simp only [List.mem_cons, List.mem_append, List.mem_map, List.mem_singleton] at h
    cases h with
    | inl hl =>
      cases hl with
      | inl hae =>
        cases hae with
        | inl ha => exact absurd ha (by simp)
        | inr he =>
          obtain ⟨i, hmem, hi⟩ := he
          exact ⟨i, hmem, (Op.cacheGet.inj hi).symm⟩
      | inr hm =>
        exact absurd hm (repairLoop_no_get st (windowIds redis q)
          ((windowIds redis q).map (lookupDetail redis.details)) redis.details k)
    | inr htl => exact absurd htl (by simp)
  · exact List.mem_cons_self _ _
  · simp

/-- C6 witness: room 20 is served from the Detail Cache, room 21 is
repaired from the Primary Store; the total comes from the Sorted Index
cardinality. -/
theorem c6_default_path_witness :
    (getRooms2 exStore6 exRedis6 {}).resp = Resp.ok 200
      { success := true
        data := [toDetail [⟨1, "alice", "a@x.io"⟩] exRoom20,
                 toDetail [⟨1, "alice", "a@x.io"⟩] exRoom21]
        metadata := ⟨2, 0, 10, 1, false, 2, ⟨"createdAt", "desc"⟩⟩ } :=
  (c6_default_path exStore6 exRedis6 {} rfl ⟨rfl, rfl⟩ rfl).1

/-! ### C10 -/

/-- C10 counterexample: principal 1 is already a participant of the
existing password-protected room 20, yet a join request without a
password is answered 400, not success (the participant set is indeed
unchanged). -/
theorem c10_member_password_counterexample :
    (joinRoom exStorePw true exCheckPw 1 20 {}).resp =
      Resp.fail 400 "비밀번호를 입력해주세요." ∧
    (joinRoom exStorePw true exCheckPw 1 20 {}).store = exStorePw ∧
    exRoomPw.participants.contains 1 = true ∧
    findRoom exStorePw.rooms 20 = some exRoomPw :=
  ⟨rfl, rfl, rfl, rfl⟩

/-- C10 (amended): a join request on an existing room by a principal
already in the participant set that passes the password gate (room
unprotected, or a verifying password supplied) leaves the store
unchanged, performs no participant-list save, and returns the success
response with the room record — joining is idempotent with respect to
membership once the gate is passed; a gate failure leaves the set
unchanged but answers 400/401 instead of success. -/
theorem c10_join_idempotent_amended (st : Store) (sock : Bool)
    (checkPw : Room → String → Bool) (requesterId roomId : Nat) (body : JoinBody)
    (room : Room) (hf : findRoom st.rooms roomId = some room)
    (hmem : room.participants.contains requesterId = true)
    (hgate : room.hasPassword = false ∨
      ∃ pw, body.password = some pw ∧ checkPw room pw = true) :
    joinRoom st sock checkPw requesterId roomId body =
      { resp := Resp.ok 200 (stripJoinPw (joinView st.users room))
        store := st
        broadcast := if sock then some (stripJoinPw (joinView st.users room)) else none
        trace := Op.dbFindById roomId ::
          (if sock then [Op.emit (toString roomId) "roomUpdate"] else []) } := by
  unfold joinRoom
  rw [hf]
  have hm : requesterId ∈ room.participants := by
    simpa using hmem
  rcases hgate with hnp | ⟨pw, hpw, hok⟩
  · simp [hnp, hm]
  · simp [hpw, hok, hm, ite_self]

/-- C10 witness: principal 2 re-joins the unprotected room it already
participates in; store unchanged, no save, success response. -/
theorem c10_join_idempotent_witness :
    joinRoom exStoreAB true exCheckPw 2 10 {} =
      { resp := Resp.ok 200 (stripJoinPw (joinView exUsersAB exRoomBob))
        store := exStoreAB
        broadcast := some (stripJoinPw (joinView exUsersAB exRoomBob))
        trace := [Op.dbFindById 10, Op.emit "10" "roomUpdate"] } :=
  c10_join_idempotent_amended exStoreAB true exCheckPw 2 10 {} exRoomBob rfl rfl
    (Or.inl rfl)

end Rooms
